import Mathlib

/-!
Verification of the interval-partition and constraint engine of the `iatw`
repository (files `iatw/Parameter.py`, `iatw/Intervals.py`,
`iatw/AlignmentModel.py`, `iatw/IntervalKernels.py`).

The Python code is shallowly embedded: real-valued scalars are modelled by `ℚ`
(every claim is about exact formulas, never about rounding), a raising Python
call is modelled by `Except PyErr`, and Python's `float('nan')` is modelled by
the two-constructor type `FV` where the NaN checks of the source matter.

Several source slips are modelled faithfully rather than repaired, because
several claims turn on them:
  * a `@property` whose resulting value is then *called* (`self.beta_U()`,
    `m.mu_R()`, `self.length()`) raises `TypeError` at run time;
  * `ConstantLengthInterval`, `RelativeLengthInterval` and `FlexibleInterval`
    shadow the inherited `length` property with plain methods, so arithmetic
    on `interval.length` raises `TypeError` for those variants (only
    `MinMaxLengthInterval` keeps the property);
  * `AlignmentModel.mu_R` reads `self._intervals_r`, an attribute that is never
    assigned anywhere in the class, which raises `AttributeError`;
  * `IntervalKernel.qry_idx` has no `return` statement, so in Python it
    evaluates `list(...).index(...)` and then returns `None`.
-/

/-- Equality of embedded fallible results is decidable, so concrete runs can
be checked by evaluation. -/
instance {ε α : Type} [DecidableEq ε] [DecidableEq α] : DecidableEq (Except ε α)
  | .ok x, .ok y =>
      if h : x = y then .isTrue (congrArg Except.ok h)
      else .isFalse (fun hc => h (Except.ok.inj hc))
  | .error x, .error y =>
      if h : x = y then .isTrue (congrArg Except.error h)
      else .isFalse (fun hc => h (Except.error.inj hc))
  | .ok _, .error _ => .isFalse (fun hc => Except.noConfusion hc)
  | .error _, .ok _ => .isFalse (fun hc => Except.noConfusion hc)

/-- The kinds of run-time failures the embedded code can raise.  The first four
are the error kinds named by the specification; the last five are the concrete
Python exception classes raised by the source slips described above. -/
inductive PyErr where
  | capacityError
  | outOfRangeError
  | configurationError
  | illegalStateError
  | typeError
  | attributeError
  | valueError
  | indexError
  | zeroDivisionError
  deriving DecidableEq, Repr

/-- The `IntervalType` enum from `iatw/Intervals.py`. -/
inductive IntervalType where
  | CONSTANT
  | MIN_MAX
  | FLEXIBLE
  | RELATIVE
  deriving DecidableEq, Repr, Inhabited

/-- An `IntervalWithLength` from `iatw/Intervals.py`: the type tag, the
reference length `_ref_length`, and the value of the single owned `len`
parameter (`self._params[0].value`).  `len` is modelled as an already-set
rational; the claims about interval geometry only involve intervals whose
length parameter holds a concrete value. -/
structure IntervalWithLength where
  interval_type : IntervalType
  ref_length : ℚ
  len : ℚ
  deriving DecidableEq, Repr, Inhabited

/-- The state of an `AlignmentModel` (`iatw/AlignmentModel.py`): the query
function, the validated `ref_begin` parameter (value and bounds; the
constructor guarantees the value is a concrete non-NaN real inside real
bounds, so plain rationals suffice), the `qry_begin`/`qry_end` parameters,
the optional margin `gamma_d`, and the interval deque. -/
structure AlignmentModel where
  f_qry : ℚ → ℚ
  ref_begin_value : ℚ
  ref_begin_lower : ℚ
  ref_begin_upper : ℚ
  qry_begin_value : ℚ
  qry_begin_lower : ℚ
  qry_begin_upper : ℚ
  qry_end_value : ℚ
  qry_end_lower : ℚ
  qry_end_upper : ℚ
  gamma_d : Option ℚ
  intervals : List IntervalWithLength

/-- Embeds `AlignmentModel.intervals(type=...)`: the sub-list of intervals of one
type, in insertion order. -/
def intervalsOfType (m : AlignmentModel) (t : IntervalType) : List IntervalWithLength :=
  m.intervals.filter (fun i => i.interval_type == t)

/-- Embeds `AlignmentModel.has_flexible_interval`: true iff exactly one FLEXIBLE
interval is present (the source compares the count with `1`). -/
def has_flexible_interval (m : AlignmentModel) : Bool :=
  (intervalsOfType m IntervalType.FLEXIBLE).length == 1

/-- Python's `deque.insert(idx, x)` for a non-negative index: clamps the index
to the length, so an index past the end appends. -/
def pyInsert (l : List IntervalWithLength) (idx : Nat) (iv : IntervalWithLength) :
    List IntervalWithLength :=
  l.take idx ++ iv :: l.drop idx

/-- Embeds `AlignmentModel.add_interval(interval, idx)` (lines 100-115): first the
flexible-interval check, then the reference-capacity check against
`ref_supp[1] - ref_supp[0]` (which is `ref_begin.upper_bound -
ref_begin.lower_bound`), then insertion.  Both failures are the
specification's `CapacityError`; on success the mutated model is returned. -/
def add_interval (m : AlignmentModel) (interval : IntervalWithLength) (idx : Nat) :
    Except PyErr AlignmentModel :=
  if has_flexible_interval m && (interval.interval_type == IntervalType.FLEXIBLE) then
    .error .capacityError
  else
    let ref_length := m.ref_begin_upper - m.ref_begin_lower
    let used_ref_length := (m.intervals.map (fun i => i.ref_length)).sum
    if used_ref_length + interval.ref_length > ref_length then
      .error .capacityError
    else
      .ok { m with intervals := pyInsert m.intervals idx interval }

/-- The loop of `AlignmentModel.reference_boundaries`: starting at `start`,
append `previous + interval.ref_length` for each interval in order. -/
def boundariesFrom (start : ℚ) : List IntervalWithLength → List ℚ
  | [] => [start]
  | iv :: rest => start :: boundariesFrom (start + iv.ref_length) rest

/-- Embeds `AlignmentModel.reference_boundaries` (θ_b, lines 132-137). -/
def reference_boundaries (m : AlignmentModel) : List ℚ :=
  boundariesFrom m.ref_begin_value m.intervals

/-- Embeds `AlignmentModel.P_for_x(x)` (lines 142-151): range check against `t[0]` and
`t[-1]`, then a linear scan of the first `P - 1` sub-intervals for
`t[idx] <= x < t[idx+1]`, falling through to `len(self._intervals) - 1`
(which is `-1` on an empty model, hence the `Int` result). -/
def P_for_x (m : AlignmentModel) (x : ℚ) : Except PyErr Int :=
  let t := reference_boundaries m
  if x < t.headD 0 ∨ x > t.getD (t.length - 1) 0 then
    .error .outOfRangeError
  else
    match (List.range (m.intervals.length - 1)).find?
        (fun idx => decide (t.getD idx 0 ≤ x) && decide (x < t.getD (idx + 1) 0)) with
    | some idx => .ok (idx : Int)
    | none => .ok ((m.intervals.length : Int) - 1)

/-- Embeds `AlignmentModel.beta_L` (lines 169-180). -/
def beta_L (m : AlignmentModel) : Except PyErr ℚ :=
  match m.gamma_d with
  | none =>
      if m.qry_begin_value > m.qry_end_value then .error .illegalStateError
      else .ok m.qry_begin_value
  | some g =>
      .ok (min (m.qry_end_upper - g) (max m.qry_begin_lower (min m.qry_begin_value m.qry_end_value)))

/-- Embeds `AlignmentModel.beta_U` (lines 183-192). -/
def beta_U (m : AlignmentModel) : Except PyErr ℚ :=
  match m.gamma_d with
  | none =>
      if m.qry_begin_value > m.qry_end_value then .error .illegalStateError
      else .ok m.qry_end_value
  | some g =>
      .ok (max (m.qry_begin_lower + g) (min m.qry_end_upper (max m.qry_begin_value m.qry_end_value)))

/-- Embeds `AlignmentModel.available_length` (lines 194-198).  The body is
`self.beta_U() - self.getBetaL() - ...`: the attribute read `self.beta_U`
runs the `beta_U` property getter (which can itself raise), and the trailing
call parentheses then invoke the resulting `float`, which always raises
`TypeError`; the class moreover has no `getBetaL` attribute at all.  Reading
the property therefore never yields a number. -/
def available_length (m : AlignmentModel) : Except PyErr ℚ :=
  match beta_U m with
  | .error e => .error e
  | .ok _ => .error .typeError

/-- Embeds `AlignmentModel.relative_lengths` (lines 202-205): the `rel_length`
(i.e. the `len` parameter value) of every RELATIVE interval, in order. -/
def relative_lengths (m : AlignmentModel) : List ℚ :=
  (intervalsOfType m IntervalType.RELATIVE).map (fun i => i.len)

/-- Embeds `AlignmentModel.mu_R` (lines 210-214): when the relative weights sum to
exactly `0.0` the source evaluates `len(self._intervals_r)`, but no attribute
`_intervals_r` is ever assigned anywhere in the class, so the read raises
`AttributeError`; otherwise the property returns `0.0`. -/
def mu_R (m : AlignmentModel) : Except PyErr ℚ :=
  if (relative_lengths m).sum = 0 then .error .attributeError
  else .ok 0

/-- Embeds `RelativeLengthInterval.length` (`iatw/Intervals.py` lines 132-139): the
body evaluates `(p.value + m.mu_R()) * m.rho / sum(m.vartheta_R)`.  The
attribute read `m.mu_R` runs the `mu_R` property getter (which can raise the
`AttributeError` above); if that yields `0.0`, the trailing call parentheses
invoke the float and raise `TypeError`.  The computation never completes. -/
def relative_interval_length (m : AlignmentModel) : Except PyErr ℚ :=
  match mu_R m with
  | .error e => .error e
  | .ok _ => .error .typeError

/-- Reading `i.length` as a number (`iatw/Intervals.py`): only
`MinMaxLengthInterval` leaves the inherited `length` property of
`IntervalWithLength` in place, so the attribute yields the stored `len`
parameter value.  `ConstantLengthInterval`, `RelativeLengthInterval` and
`FlexibleInterval` all shadow the property with a plain method, so the
attribute is a bound method and any arithmetic on it raises `TypeError`.
Each enum tag corresponds to exactly one concrete subclass, so the dispatch
on the tag is exact. -/
def length_read (i : IntervalWithLength) : Except PyErr ℚ :=
  if i.interval_type == IntervalType.MIN_MAX then .ok i.len
  else .error .typeError

/-- The accumulation loop of `interval_offset`: `offset += i.length` over a
prefix of the interval sequence, propagating the `TypeError` that the
`length` read raises on a Constant/Relative/Flexible interval. -/
def addLengths (acc : ℚ) : List IntervalWithLength → Except PyErr ℚ
  | [] => .ok acc
  | i :: rest =>
      match length_read i with
      | .error e => .error e
      | .ok v => addLengths (acc + v) rest

/-- Embeds `AlignmentModel.interval_offset(interval)` (lines 156-164): starts from
`beta_L` (a property read that can raise), then adds each preceding
interval's `length` until the given interval is met; if it is absent the sum
runs over the whole sequence.  The loop raises `TypeError` as soon as a
preceding interval's `length` is the shadowing method (see `length_read`).
Python compares intervals by identity; here two intervals are identified iff
they are structurally equal. -/
def interval_offset (m : AlignmentModel) (interval : IntervalWithLength) : Except PyErr ℚ :=
  match beta_L m with
  | .error e => .error e
  | .ok offset =>
      addLengths offset (m.intervals.takeWhile (fun i => !(i == interval)))

/-- A `LinearWarpingKernel` (`iatw/IntervalKernels.py`): the bound interval,
its model, and the reference index.  `ref_idx` must be given explicitly at
construction: the default path stores `self.qry_idx`, which is `None`
(see `qry_idx` below), and every later use of it would raise. -/
structure LinearWarpingKernel where
  model : AlignmentModel
  interval : IntervalWithLength
  ref_idx : Nat

/-- Python's `list.index`: the position of the first matching element, if
any (Python compares by `==`, which is identity for these objects; two
intervals are identified here iff they are structurally equal). -/
def listIndex (l : List IntervalWithLength) (iv : IntervalWithLength) : Option Nat :=
  match l with
  | [] => none
  | a :: rest => if a == iv then some 0 else (listIndex rest iv).map (fun n => n + 1)

/-- Embeds `IntervalKernel.qry_idx` (lines 23-25): the body is the bare expression
`list(self.model.intervals()).index(self.interval)` with no `return`
statement.  When the interval is absent, `list.index` raises `ValueError`;
when it is present, the index is computed, discarded, and the property
returns `None`. -/
def qry_idx (m : AlignmentModel) (interval : IntervalWithLength) : Except PyErr (Option Nat) :=
  match listIndex m.intervals interval with
  | some _ => .ok none
  | none => .error .valueError

/-- Embeds `IntervalKernel.ref_support` (lines 34-38): `(θ_b[ref_idx],
θ_b[ref_idx+1])`; Python list indexing raises `IndexError` past the end. -/
def ref_support (k : LinearWarpingKernel) : Except PyErr (ℚ × ℚ) :=
  let tb := reference_boundaries k.model
  if k.ref_idx + 1 < tb.length then
    .ok (tb.getD k.ref_idx 0, tb.getD (k.ref_idx + 1) 0)
  else
    .error .indexError

/-- Embeds `IntervalKernel.source_begin` (lines 27-29): `beta_L + interval.offset`
(note that `interval_offset` itself already starts at `beta_L`, so the term
is counted twice; the specification describes the same formula). -/
def source_begin (k : LinearWarpingKernel) : Except PyErr ℚ :=
  match beta_L k.model with
  | .error e => .error e
  | .ok b =>
      match interval_offset k.model k.interval with
      | .error e => .error e
      | .ok off => .ok (b + off)

/-- Embeds `LinearWarpingKernel.__call__(x)` (lines 77-81): range check against
`ref_support`, then `f_qry(s_b + interval.length * (x - t_b) / delta_t)`
where `delta_t = ref_support[1] - ref_support[0]`.  In argument order the
source first evaluates `self.s_b` (which can raise through `beta_L` and the
offset loop), then uses `self.interval.length` as a number — a `TypeError`
unless the interval is a `MinMaxLengthInterval` (see `length_read`) — and a
zero `delta_t` would raise `ZeroDivisionError`, made an explicit error. -/
def lwk_call (k : LinearWarpingKernel) (x : ℚ) : Except PyErr ℚ :=
  match ref_support k with
  | .error e => .error e
  | .ok s =>
      if x < s.1 ∨ x > s.2 then
        .error .outOfRangeError
      else
        match source_begin k with
        | .error e => .error e
        | .ok sb =>
            match length_read k.interval with
            | .error e => .error e
            | .ok len =>
                let dt := s.2 - s.1
                if dt = 0 then .error .zeroDivisionError
                else .ok (k.model.f_qry (sb + len * (x - s.1) / dt))

/-- A Python float as far as the NaN checks of the source are concerned:
either NaN or a real value. -/
inductive FV where
  | nan : FV
  | val : ℚ → FV
  deriving DecidableEq, Repr

/-- Embeds `math.isnan`. -/
def FV.isnan : FV → Bool
  | .nan => true
  | .val _ => false

/-- Python's `a >= b` on floats: any comparison involving NaN is false. -/
def FV.ge : FV → FV → Bool
  | .val a, .val b => decide (b ≤ a)
  | _, _ => false

/-- The `Parameter` dataclass (`iatw/Parameter.py`): optional value and
bounds (a fresh parameter holds `None` in those fields). -/
structure PyParameter where
  name : String
  value : Option FV
  lower_bound : Option FV
  upper_bound : Option FV
  is_trainable : Bool
  deriving DecidableEq, Repr

/-- The `Parameter.bounds` setter (lines 18-23): it assigns
`self.lower_bound = value[0]` and `self.upper_bound = value[1]` and returns;
the body contains no check of any kind and cannot raise. -/
def bounds_set (p : PyParameter) (value : FV × FV) : PyParameter :=
  { p with lower_bound := some value.1, upper_bound := some value.2 }

/-- The state of a `MinMaxLengthInterval` relevant to its bounds setter: the
`len` parameter's value and bounds. -/
structure MinMaxLengthInterval where
  ref_length : ℚ
  len_value : Option FV
  len_lower : Option FV
  len_upper : Option FV
  deriving DecidableEq, Repr

/-- The `MinMaxLengthInterval.min_max_lengths` setter (`iatw/Intervals.py`
lines 103-119): after the NaN check and the `mm[0] >= mm[1]` check, line 112
executes `l = self.length()`.  `length` is the `IntervalWithLength` property
(this subclass does not override it), so `self.length` evaluates to the
stored parameter value and the call parentheses then invoke that
float / `None`, raising `TypeError`; the bounds update below is never
reached. -/
def min_max_lengths_set (iv : MinMaxLengthInterval) (mm : FV × FV) :
    Except PyErr MinMaxLengthInterval :=
  if mm.1.isnan || mm.2.isnan then .error .configurationError
  else if FV.ge mm.1 mm.2 then .error .configurationError
  else .error .typeError

/-! ### Concrete instances (the example scenario of spec §8, and variants) -/

/-- The relative interval of the spec §8 example: `ref_length = 0.8`, weight 0. -/
def exampleInterval : IntervalWithLength :=
  { interval_type := IntervalType.RELATIVE, ref_length := 8/10, len := 0 }

/-- The spec §8 example model: `ref_begin` bounds (0,1) value 0, `qry_begin`
value 0 with bounds (0, 3.14), `qry_end` value 3.14 with bounds (0, 5), no
margin, one relative interval with weight 0. -/
def exampleModel : AlignmentModel where
  f_qry := id
  ref_begin_value := 0
  ref_begin_lower := 0
  ref_begin_upper := 1
  qry_begin_value := 0
  qry_begin_lower := 0
  qry_begin_upper := 314/100
  qry_end_value := 314/100
  qry_end_lower := 0
  qry_end_upper := 5
  gamma_d := none
  intervals := [exampleInterval]

/-- The example model with the relative weight set to 1/2 instead of 0. -/
def exampleModelW : AlignmentModel :=
  { exampleModel with
    intervals := [{ interval_type := IntervalType.RELATIVE, ref_length := 8/10, len := 1/2 }] }

/-- The example model before any interval is added. -/
def emptyModel : AlignmentModel :=
  { exampleModel with intervals := [] }

/-- A flexible interval with `ref_length = 0.1`. -/
def flexInterval : IntervalWithLength :=
  { interval_type := IntervalType.FLEXIBLE, ref_length := 1/10, len := 0 }

/-- The example model holding one flexible interval. -/
def flexModel : AlignmentModel :=
  { exampleModel with intervals := [flexInterval] }

/-! ### C1: `add_interval` -/

/-- C1: `add_interval` fails with CapacityError exactly when the summed
reference lengths plus the new interval's would exceed
`ref_begin.upper_bound - ref_begin.lower_bound`, or when the model already
holds a FLEXIBLE interval and the new interval is FLEXIBLE; on failure the
returned value is the error alone (the pure embedding leaves `m`, and with it
the interval sequence, untouched), and otherwise the new interval is inserted
at position `idx` — clamped the way `deque.insert` clamps, so the default
index, which exceeds any length, appends at the end — and the updated model
is returned.  The hypothesis restricts to model states reachable through
`add_interval` itself, which hold at most one flexible interval. -/
theorem add_interval_spec (m : AlignmentModel) (iv : IntervalWithLength) (idx : ℕ)
    (hflex : (intervalsOfType m IntervalType.FLEXIBLE).length ≤ 1) :
    ((1 ≤ (intervalsOfType m IntervalType.FLEXIBLE).length ∧
        iv.interval_type = IntervalType.FLEXIBLE) ∨
      (m.intervals.map (fun i => i.ref_length)).sum + iv.ref_length >
        m.ref_begin_upper - m.ref_begin_lower →
      add_interval m iv idx = .error .capacityError) ∧
    (¬ ((1 ≤ (intervalsOfType m IntervalType.FLEXIBLE).length ∧
        iv.interval_type = IntervalType.FLEXIBLE) ∨
      (m.intervals.map (fun i => i.ref_length)).sum + iv.ref_length >
        m.ref_begin_upper - m.ref_begin_lower) →
      add_interval m iv idx = .ok { m with intervals := pyInsert m.intervals idx iv }) ∧
    (m.intervals.length ≤ idx → pyInsert m.intervals idx iv = m.intervals ++ [iv]) := by
  have hb : (has_flexible_interval m && (iv.interval_type == IntervalType.FLEXIBLE)) = true ↔
      (1 ≤ (intervalsOfType m IntervalType.FLEXIBLE).length ∧
        iv.interval_type = IntervalType.FLEXIBLE) := by
    simp only [has_flexible_interval, Bool.and_eq_true, beq_iff_eq]
    constructor
    · rintro ⟨h1, h2⟩
      exact ⟨by omega, h2⟩
    · rintro ⟨h1, h2⟩
      exact ⟨by omega, h2⟩
  refine ⟨?_, ?_, ?_⟩
  · intro h
    by_cases hfl : (has_flexible_interval m && (iv.interval_type == IntervalType.FLEXIBLE)) = true
    · simp only [add_interval, if_pos hfl]
    · rcases h with hcase | hcase
      · exact absurd (hb.mpr hcase) hfl
      · simp only [add_interval, if_neg hfl]
        rw [if_pos hcase]
  · intro h
    have hA : ¬ (1 ≤ (intervalsOfType m IntervalType.FLEXIBLE).length ∧
        iv.interval_type = IntervalType.FLEXIBLE) := fun hc => h (Or.inl hc)
    have hB : ¬ ((m.intervals.map (fun i => i.ref_length)).sum + iv.ref_length >
        m.ref_begin_upper - m.ref_begin_lower) := fun hc => h (Or.inr hc)
    have hfl : ¬ (has_flexible_interval m && (iv.interval_type == IntervalType.FLEXIBLE)) = true :=
      fun hc => hA (hb.mp hc)
    simp only [add_interval, if_neg hfl]
    rw [if_neg hB]
  · intro h
    simp only [pyInsert]
    rw [List.take_of_length_le h, List.drop_eq_nil_of_le h]

/-- C1 witness: on the example model already holding one flexible interval,
adding a second flexible interval fails with CapacityError. -/
theorem add_interval_spec_witness :
    add_interval flexModel flexInterval 99 = .error .capacityError :=
  (add_interval_spec flexModel flexInterval 99 (by decide)).1 (Or.inl ⟨by decide, rfl⟩)

/-! ### C3: `available_length` -/

/-- C3: reading `available_length` on the valid example model of spec §8 does
not return `beta_U - beta_L - ...`: it raises `TypeError`, because the source
calls the `beta_U` property's float result and references the undefined
attribute `getBetaL`.  The second and third conjuncts show the intended
operands are themselves well defined on this model (β_U = 3.14, β_L = 0), so
the failure is not excused by any violated model invariant. -/
theorem available_length_always_raises :
    available_length exampleModel = .error .typeError ∧
    beta_U exampleModel = .ok (314/100) ∧
    beta_L exampleModel = .ok 0 := by
  have hU : beta_U exampleModel = .ok (314/100) := by
    simp only [beta_U, exampleModel]
    norm_num
  refine ⟨?_, hU, ?_⟩
  · simp only [available_length, hU]
  · simp only [beta_L, exampleModel]
    norm_num

/-! ### C4: `mu_R` and the relative-interval length -/

/-- C4: on the example model whose single RELATIVE interval has weight 0 (so
the relative weights sum to exactly 0.0), reading `mu_R` does not return
1/N_r = 1: it raises `AttributeError`, because `self._intervals_r` is never
defined.  With a nonzero weight `mu_R` does return 0.0 as claimed, but the
relative interval's computed length then raises `TypeError` (the source calls
`m.mu_R()` on the property's float result), so the claimed proportional
length is never produced either. -/
theorem mu_R_and_relative_length_raise :
    mu_R exampleModel = .error .attributeError ∧
    relative_lengths exampleModel = [0] ∧
    mu_R exampleModelW = .ok 0 ∧
    relative_interval_length exampleModelW = .error .typeError := by
  have h1 : relative_lengths exampleModel = [0] := rfl
  have h2 : relative_lengths exampleModelW = [1/2] := rfl
  have h3 : mu_R exampleModelW = .ok 0 := by
    simp only [mu_R, h2]
    norm_num
  refine ⟨?_, h1, h3, ?_⟩
  · simp only [mu_R, h1]
    norm_num
  · simp only [relative_interval_length, h3]

/-! ### C7: the `Parameter.bounds` setter -/

/-- C7 counterexample: with `lo = 2 ≥ hi = 1`, the claim demands a
ConfigurationError, but the setter body (two plain assignments, lines 21-22
of `iatw/Parameter.py`) cannot raise: it simply stores the misordered
bounds. -/
theorem bounds_set_cex :
    FV.ge (FV.val 2) (FV.val 1) = true ∧
    bounds_set
        { name := "p", value := some (FV.val 0), lower_bound := some (FV.val 0),
          upper_bound := some (FV.val 1), is_trainable := true }
        (FV.val 2, FV.val 1)
      = { name := "p", value := some (FV.val 0), lower_bound := some (FV.val 2),
          upper_bound := some (FV.val 1), is_trainable := true } :=
  ⟨by decide, rfl⟩

/-- C7 amended: the `bounds` setter performs no validation at all — for every
parameter and every pair `(lo, hi)`, including NaN members or `lo ≥ hi`, the
assignment succeeds, setting `lower_bound` to `lo` and `upper_bound` to `hi`
and leaving the remaining fields unchanged. -/
theorem bounds_set_spec (p : PyParameter) (lo hi : FV) :
    (bounds_set p (lo, hi)).lower_bound = some lo ∧
    (bounds_set p (lo, hi)).upper_bound = some hi ∧
    (bounds_set p (lo, hi)).name = p.name ∧
    (bounds_set p (lo, hi)).value = p.value ∧
    (bounds_set p (lo, hi)).is_trainable = p.is_trainable :=
  ⟨rfl, rfl, rfl, rfl, rfl⟩

/-! ### C8: the `MinMaxLengthInterval.min_max_lengths` setter -/

/-- A min-max interval whose `len` parameter currently holds 2.0 with
bounds (0, 5). -/
def exampleMinMax : MinMaxLengthInterval :=
  { ref_length := 1, len_value := some (FV.val 2),
    len_lower := some (FV.val 0), len_upper := some (FV.val 5) }

/-- C8: with current length 2.0, assigning the perfectly admissible bounds
(1.0, 3.0) — not NaN, ordered, containing the live value — does not succeed:
it raises `TypeError`, because line 112 calls the inherited `length`
property's float result.  The NaN and misordering failures the claim lists do
occur (second and third conjuncts), but no call can ever reach the bounds
update, so the setter's non-failing case never happens. -/
theorem min_max_lengths_set_raises :
    min_max_lengths_set exampleMinMax (FV.val 1, FV.val 3) = .error .typeError ∧
    min_max_lengths_set exampleMinMax (FV.nan, FV.val 3) = .error .configurationError ∧
    min_max_lengths_set exampleMinMax (FV.val 3, FV.val 1) = .error .configurationError :=
  ⟨rfl, rfl, rfl⟩

/-! ### C9: `IntervalKernel.qry_idx` -/

/-- C9: on the example model, `exampleInterval` sits at position 0 of the
interval sequence (first conjunct), yet `qry_idx` returns `None` rather than
0, because the property body lacks a `return` statement; for an interval
absent from the sequence it does fail (`list.index` raises `ValueError`, the
specification's NotFoundError), as the claim says. -/
theorem qry_idx_missing_return :
    exampleModel.intervals.getD 0 default = exampleInterval ∧
    qry_idx exampleModel exampleInterval = .ok none ∧
    qry_idx exampleModel
        { interval_type := IntervalType.CONSTANT, ref_length := 1/10, len := 0 }
      = .error .valueError := by
  refine ⟨rfl, ?_, ?_⟩
  · simp [qry_idx, exampleModel, listIndex]
  · simp [qry_idx, exampleModel, listIndex, exampleInterval]

/-! ### C10: `P_for_x` on an interval-free model -/

/-- C10: on a model holding zero intervals, `reference_boundaries` is the
single-element list `[ref_begin.value]`, so `x = ref_begin.value` passes the
range check, the scan loop is empty, and the fall-through returns
`len(intervals) - 1 = -1`, an index designating no interval; every other `x`
fails the range check and raises the out-of-range error. -/
theorem P_for_x_empty_spec (m : AlignmentModel) (h : m.intervals = []) :
    P_for_x m m.ref_begin_value = .ok (-1) ∧
    ∀ x : ℚ, x ≠ m.ref_begin_value → P_for_x m x = .error .outOfRangeError := by
  constructor
  · simp [P_for_x, reference_boundaries, h, boundariesFrom]
  · intro x hx
    rcases lt_or_gt_of_ne hx with h1 | h1
    · simp [P_for_x, reference_boundaries, h, boundariesFrom, h1]
    · simp [P_for_x, reference_boundaries, h, boundariesFrom, h1]

/-- C10 witness: on the concrete empty model (`ref_begin.value = 0`),
`P_for_x 0` returns -1 and `P_for_x 7` raises the out-of-range error. -/
theorem P_for_x_empty_witness :
    P_for_x emptyModel emptyModel.ref_begin_value = .ok (-1) ∧
    P_for_x emptyModel 7 = .error .outOfRangeError :=
  ⟨(P_for_x_empty_spec emptyModel rfl).1,
    (P_for_x_empty_spec emptyModel rfl).2 7 (by norm_num [emptyModel, exampleModel])⟩

/-! ### Helper lemmas about the boundary list -/

/-- Index `t[0]` of a nonempty list agrees with index-0 access; the defaults
coincide on the empty list too. -/
theorem headD_eq_getD_zero (l : List ℚ) : l.headD 0 = l.getD 0 0 := by
  cases l <;> rfl

theorem boundariesFrom_length (start : ℚ) (l : List IntervalWithLength) :
    (boundariesFrom start l).length = l.length + 1 := by
  induction l generalizing start with
  | nil => rfl
  | cons a rest ih => simp [boundariesFrom, ih]

/-- Element `k` of the boundary list is the start plus the reference lengths
of the first `k` intervals. -/
theorem boundariesFrom_getD (start : ℚ) (l : List IntervalWithLength) (k : ℕ)
    (hk : k ≤ l.length) :
    (boundariesFrom start l).getD k 0
      = start + ((l.take k).map (fun i => i.ref_length)).sum := by
  induction l generalizing start k with
  | nil =>
    have hk0 : k = 0 := Nat.le_zero.mp hk
    subst hk0
    simp [boundariesFrom]
  | cons a rest ih =>
    cases k with
    | zero => simp [boundariesFrom]
    | succ n =>
      have hn : n ≤ rest.length := by simpa using hk
      simp only [boundariesFrom, List.getD_cons_succ, ih (start + a.ref_length) n hn,
        List.take_succ_cons, List.map_cons, List.sum_cons]
      ring

theorem boundariesFrom_headD (start : ℚ) (l : List IntervalWithLength) :
    (boundariesFrom start l).headD 0 = start := by
  cases l <;> rfl

/-- Prefix sums of nonnegative reference lengths are monotone. -/
theorem refLength_take_sum_le (l : List IntervalWithLength)
    (hpos : ∀ iv ∈ l, 0 ≤ iv.ref_length) {i j : ℕ} (hij : i ≤ j) :
    ((l.take i).map (fun iv => iv.ref_length)).sum
      ≤ ((l.take j).map (fun iv => iv.ref_length)).sum := by
  have h1 : l.take i = (l.take j).take i := by
    rw [List.take_take, Nat.min_eq_left hij]
  rw [h1]
  conv_rhs => rw [← List.take_append_drop i (l.take j)]
  rw [List.map_append, List.sum_append]
  have h2 : 0 ≤ (((l.take j).drop i).map (fun iv => iv.ref_length)).sum := by
    apply List.sum_nonneg
    intro y hy
    rcases List.mem_map.mp hy with ⟨iv, hiv, rfl⟩
    exact hpos iv (List.mem_of_mem_take (List.mem_of_mem_drop hiv))
  linarith

/-- The boundary list is monotone when reference lengths are nonnegative. -/
theorem boundariesFrom_mono (start : ℚ) (l : List IntervalWithLength)
    (hpos : ∀ iv ∈ l, 0 ≤ iv.ref_length) {i j : ℕ} (hij : i ≤ j) (hj : j ≤ l.length) :
    (boundariesFrom start l).getD i 0 ≤ (boundariesFrom start l).getD j 0 := by
  rw [boundariesFrom_getD start l i (le_trans hij hj), boundariesFrom_getD start l j hj]
  have := refLength_take_sum_le l hpos hij
  linarith

/-- Each boundary is the previous one plus the corresponding interval's
reference length. -/
theorem boundariesFrom_step (start : ℚ) (l : List IntervalWithLength) {i : ℕ}
    (hi : i < l.length) :
    (boundariesFrom start l).getD (i + 1) 0
      = (boundariesFrom start l).getD i 0 + (l.getD i default).ref_length := by
  rw [boundariesFrom_getD start l (i + 1) hi, boundariesFrom_getD start l i (le_of_lt hi)]
  rw [List.map_take, List.map_take,
    List.sum_take_succ _ i (by simpa using hi)]
  rw [List.getD_eq_getElem l default hi]
  simp only [List.get_eq_getElem, List.getElem_map]
  ring

/-- Discrete intermediate value: if `x` is at or above boundary 0 and strictly
below boundary `k`, some sub-interval below `k` brackets it. -/
theorem boundariesFrom_cross (start : ℚ) (l : List IntervalWithLength) (x : ℚ) :
    ∀ k : ℕ, (boundariesFrom start l).getD 0 0 ≤ x →
      x < (boundariesFrom start l).getD k 0 →
      ∃ j : ℕ, j < k ∧ (boundariesFrom start l).getD j 0 ≤ x ∧
        x < (boundariesFrom start l).getD (j + 1) 0 := by
  intro k
  induction k with
  | zero => intro h0 hk; exact absurd hk (not_lt.mpr h0)
  | succ n ih =>
    intro h0 hk
    by_cases hx : x < (boundariesFrom start l).getD n 0
    · rcases ih h0 hx with ⟨j, hj, hj1, hj2⟩
      exact ⟨j, Nat.lt_succ_of_lt hj, hj1, hj2⟩
    · exact ⟨n, Nat.lt_succ_self n, not_lt.mp hx, hk⟩

/-- At most one sub-interval brackets `x` (the last one counting as bracketing
whenever its left boundary is at or below `x`). -/
theorem boundariesFrom_bracket_unique (start : ℚ) (l : List IntervalWithLength)
    (hpos : ∀ iv ∈ l, 0 ≤ iv.ref_length) (x : ℚ) {j1 j2 : ℕ}
    (h1 : j1 < l.length) (h2 : j2 < l.length)
    (hb1l : (boundariesFrom start l).getD j1 0 ≤ x)
    (hb1r : x < (boundariesFrom start l).getD (j1 + 1) 0 ∨ j1 = l.length - 1)
    (hb2l : (boundariesFrom start l).getD j2 0 ≤ x)
    (hb2r : x < (boundariesFrom start l).getD (j2 + 1) 0 ∨ j2 = l.length - 1) :
    j1 = j2 := by
  rcases lt_trichotomy j1 j2 with hlt | heq | hgt
  · exfalso
    rcases hb1r with hbr | hbr
    · have hmono := boundariesFrom_mono start l hpos (Nat.succ_le_of_lt hlt) (le_of_lt h2)
      linarith
    · omega
  · exact heq
  · exfalso
    rcases hb2r with hbr | hbr
    · have hmono := boundariesFrom_mono start l hpos (Nat.succ_le_of_lt hgt) (le_of_lt h1)
      linarith
    · omega

/-! ### C6: `reference_boundaries` -/

/-- C6: for a model whose interval reference lengths are all positive (the
invariant the `ref_length` setter enforces), `reference_boundaries` has
length P+1, starts at `ref_begin.value`, each subsequent element is the
previous plus the corresponding interval's `ref_length` in insertion order,
and the sequence is non-decreasing. -/
theorem reference_boundaries_spec (m : AlignmentModel)
    (hpos : ∀ iv ∈ m.intervals, 0 < iv.ref_length) :
    (reference_boundaries m).length = m.intervals.length + 1 ∧
    (reference_boundaries m).getD 0 0 = m.ref_begin_value ∧
    (∀ i, i < m.intervals.length →
      (reference_boundaries m).getD (i + 1) 0
        = (reference_boundaries m).getD i 0 + (m.intervals.getD i default).ref_length) ∧
    (∀ i, i < m.intervals.length →
      (reference_boundaries m).getD i 0 ≤ (reference_boundaries m).getD (i + 1) 0) := by
  refine ⟨boundariesFrom_length _ _, ?_, ?_, ?_⟩
  · rw [reference_boundaries, boundariesFrom_getD _ _ 0 (Nat.zero_le _)]
    simp
  · intro i hi
    exact boundariesFrom_step _ _ hi
  · intro i hi
    exact boundariesFrom_mono _ _ (fun iv h => le_of_lt (hpos iv h)) (Nat.le_succ i) hi

/-- C6 witness: on the example model (one interval of reference length 0.8
starting at 0), the boundary list has length 2, starts at 0 and steps to
0.8. -/
theorem reference_boundaries_spec_witness :
    (reference_boundaries exampleModel).length = 2 ∧
    (reference_boundaries exampleModel).getD 0 0 = 0 := by
  have h := reference_boundaries_spec exampleModel
    (by norm_num [exampleModel, exampleInterval])
  refine ⟨?_, ?_⟩
  · rw [h.1]
    rfl
  · rw [h.2.1]
    rfl

/-! ### C2: `P_for_x` -/

/-- C2: for a model with at least one interval (and the source-enforced
invariant that every `ref_length` is positive), `P_for_x` fails with the
out-of-range error exactly when `x < θ_b[0]` or `x > θ_b[P]`; for every `x`
in the closed range it returns exactly one index `i` in `[0, P-1]` with
`θ_b[i] ≤ x < θ_b[i+1]`, the final sub-interval being closed on the right
(`x = θ_b[P]` included, yielding `P-1`). -/
theorem P_for_x_spec (m : AlignmentModel) (hP : 1 ≤ m.intervals.length)
    (hpos : ∀ iv ∈ m.intervals, 0 < iv.ref_length) (x : ℚ) :
    (P_for_x m x = .error .outOfRangeError ↔
      (x < (reference_boundaries m).getD 0 0 ∨
        x > (reference_boundaries m).getD m.intervals.length 0)) ∧
    ((reference_boundaries m).getD 0 0 ≤ x →
      x ≤ (reference_boundaries m).getD m.intervals.length 0 →
      ∃ i : ℕ, P_for_x m x = .ok (i : ℤ) ∧ i < m.intervals.length ∧
        (reference_boundaries m).getD i 0 ≤ x ∧
        (x < (reference_boundaries m).getD (i + 1) 0 ∨
          (i = m.intervals.length - 1 ∧
            x ≤ (reference_boundaries m).getD m.intervals.length 0)) ∧
        ∀ j : ℕ, j < m.intervals.length →
          (reference_boundaries m).getD j 0 ≤ x →
          (x < (reference_boundaries m).getD (j + 1) 0 ∨
            (j = m.intervals.length - 1 ∧
              x ≤ (reference_boundaries m).getD m.intervals.length 0)) →
          j = i) := by
  simp only [reference_boundaries]
  have hpos2 : ∀ iv ∈ m.intervals, 0 ≤ iv.ref_length :=
    fun iv h => le_of_lt (hpos iv h)
  have hunf : P_for_x m x =
      if x < (boundariesFrom m.ref_begin_value m.intervals).getD 0 0 ∨
          x > (boundariesFrom m.ref_begin_value m.intervals).getD m.intervals.length 0 then
        Except.error PyErr.outOfRangeError
      else
        match (List.range (m.intervals.length - 1)).find?
            (fun idx =>
              decide ((boundariesFrom m.ref_begin_value m.intervals).getD idx 0 ≤ x) &&
              decide (x < (boundariesFrom m.ref_begin_value m.intervals).getD (idx + 1) 0)) with
        | some idx => Except.ok (idx : ℤ)
        | none => Except.ok ((m.intervals.length : ℤ) - 1) := by
    simp only [P_for_x, reference_boundaries]
    rw [headD_eq_getD_zero, boundariesFrom_length, Nat.add_sub_cancel]
  constructor
  · rw [hunf]
    by_cases hc : x < (boundariesFrom m.ref_begin_value m.intervals).getD 0 0 ∨
        x > (boundariesFrom m.ref_begin_value m.intervals).getD m.intervals.length 0
    · rw [if_pos hc]
      exact iff_of_true rfl hc
    · rw [if_neg hc]
      rcases hcase : (List.range (m.intervals.length - 1)).find?
          (fun idx =>
            decide ((boundariesFrom m.ref_begin_value m.intervals).getD idx 0 ≤ x) &&
            decide (x < (boundariesFrom m.ref_begin_value m.intervals).getD (idx + 1) 0)) with
        _ | idx
      · exact iff_of_false (by simp) hc
      · exact iff_of_false (by simp) hc
  · intro hx0 hxP
    have hcond : ¬ (x < (boundariesFrom m.ref_begin_value m.intervals).getD 0 0 ∨
        x > (boundariesFrom m.ref_begin_value m.intervals).getD m.intervals.length 0) := by
      rintro (h | h) <;> linarith
    rcases hcase : (List.range (m.intervals.length - 1)).find?
        (fun idx =>
          decide ((boundariesFrom m.ref_begin_value m.intervals).getD idx 0 ≤ x) &&
          decide (x < (boundariesFrom m.ref_begin_value m.intervals).getD (idx + 1) 0)) with
      _ | idx
    · have hlast : (boundariesFrom m.ref_begin_value m.intervals).getD
          (m.intervals.length - 1) 0 ≤ x := by
        by_contra hlt
        push_neg at hlt
        rcases boundariesFrom_cross m.ref_begin_value m.intervals x
            (m.intervals.length - 1) hx0 hlt with ⟨j, hj, hj1, hj2⟩
        have hnone := List.find?_eq_none.mp hcase j (List.mem_range.mpr hj)
        simp only [Bool.and_eq_true, decide_eq_true_eq, not_and, not_lt] at hnone
        exact absurd hj2 (not_lt.mpr (hnone hj1))
      have hcast : ((m.intervals.length - 1 : ℕ) : ℤ) = (m.intervals.length : ℤ) - 1 := by
        omega
      refine ⟨m.intervals.length - 1, ?_, by omega, hlast, Or.inr ⟨rfl, hxP⟩, ?_⟩
      · rw [hunf, if_neg hcond, hcase, hcast]
      · intro j hj hjl hjr
        exact boundariesFrom_bracket_unique m.ref_begin_value m.intervals hpos2 x
          hj (by omega) hjl (hjr.imp_right And.left) hlast (Or.inr rfl)
    · have hpred := List.find?_some hcase
      have hidxlt : idx < m.intervals.length - 1 :=
        List.mem_range.mp (List.mem_of_find?_eq_some hcase)
      simp only [Bool.and_eq_true, decide_eq_true_eq] at hpred
      obtain ⟨hl, hr⟩ := hpred
      refine ⟨idx, ?_, by omega, hl, Or.inl hr, ?_⟩
      · rw [hunf, if_neg hcond, hcase]
      · intro j hj hjl hjr
        exact boundariesFrom_bracket_unique m.ref_begin_value m.intervals hpos2 x
          hj (by omega) hjl (hjr.imp_right And.left) hl (Or.inl hr)

/-- C2 witness: on the example model (boundaries [0, 0.8]), `P_for_x (-1)`
raises the out-of-range error. -/
theorem P_for_x_spec_witness :
    P_for_x exampleModel (-1) = .error .outOfRangeError := by
  have h := (P_for_x_spec exampleModel (by decide)
    (by norm_num [exampleModel, exampleInterval]) (-1)).1
  exact h.mpr (Or.inl (by
    norm_num [reference_boundaries, boundariesFrom, exampleModel, exampleInterval]))

/-! ### C5: `LinearWarpingKernel.__call__` -/

/-- The kernel of the spec §8 scenario: bound to the example model's single
RelativeLengthInterval, with `ref_idx = 0` given explicitly (as the source
requires, see `qry_idx`). -/
def exampleKernel : LinearWarpingKernel :=
  { model := exampleModel, interval := exampleInterval, ref_idx := 0 }

/-- A MIN_MAX interval with the same reference length 0.8 and stored length
parameter value 2 (the one variant whose `length` attribute is a number). -/
def exampleMMInterval : IntervalWithLength :=
  { interval_type := IntervalType.MIN_MAX, ref_length := 8/10, len := 2 }

/-- The example model carrying the MIN_MAX interval instead. -/
def exampleModelMM : AlignmentModel :=
  { exampleModel with intervals := [exampleMMInterval] }

/-- A kernel bound to the MIN_MAX interval of `exampleModelMM`. -/
def exampleKernelMM : LinearWarpingKernel :=
  { model := exampleModelMM, interval := exampleMMInterval, ref_idx := 0 }

/-- C5: on the §8 kernel — bound to a RelativeLengthInterval — the in-range
evaluation at `x = target_begin = 0` does not return
`f_qry(source_begin) = 0`: it raises `TypeError`, because
`RelativeLengthInterval` shadows the `length` property with a method, so
`self.interval.length * (x - t_b)` multiplies a bound method (the same holds
for the Constant and Flexible variants).  The out-of-range part of the claim
does hold — the range check runs before any length read (second conjunct) —
and a kernel over a MIN_MAX interval, the one variant whose `length` is a
number, returns exactly the claimed formula value (third conjunct), which
isolates the shadowing as the sole divergence. -/
theorem lwk_call_length_shadowing :
    lwk_call exampleKernel 0 = .error .typeError ∧
    lwk_call exampleKernel (-1) = .error .outOfRangeError ∧
    lwk_call exampleKernelMM 0 = .ok 0 := by
  have hbl : beta_L exampleModel = .ok 0 := by
    simp only [beta_L, exampleModel]
    norm_num
  have hblMM : beta_L exampleModelMM = .ok 0 := by
    simp only [beta_L, exampleModelMM, exampleModel]
    norm_num
  have hsupp : ref_support exampleKernel = .ok (0, 4/5) := by
    simp only [ref_support, exampleKernel, reference_boundaries, exampleModel, exampleInterval,
      boundariesFrom]
    norm_num
  have hsuppMM : ref_support exampleKernelMM = .ok (0, 4/5) := by
    simp only [ref_support, exampleKernelMM, reference_boundaries, exampleModelMM, exampleModel,
      exampleMMInterval, boundariesFrom]
    norm_num
  have hoff : interval_offset exampleModel exampleInterval = .ok 0 := by
    simp only [interval_offset]
    rw [hbl]
    simp [exampleModel, addLengths]
  have hoffMM : interval_offset exampleModelMM exampleMMInterval = .ok 0 := by
    simp only [interval_offset]
    rw [hblMM]
    simp [exampleModelMM, exampleModel, addLengths]
  have hsb : source_begin exampleKernel = .ok 0 := by
    simp only [source_begin, exampleKernel]
    rw [hbl, hoff]
    norm_num
  have hsbMM : source_begin exampleKernelMM = .ok 0 := by
    simp only [source_begin, exampleKernelMM]
    rw [hblMM, hoffMM]
    norm_num
  refine ⟨?_, ?_, ?_⟩
  · simp only [lwk_call]
    rw [hsupp, hsb]
    norm_num [length_read, exampleKernel, exampleInterval]
    rfl
  · simp only [lwk_call]
    rw [hsupp]
    norm_num
  · simp only [lwk_call]
    rw [hsuppMM, hsbMM]
    norm_num [length_read, exampleKernelMM, exampleMMInterval, exampleModelMM, exampleModel]
